import Mathlib

/-!
Verification development for the Infraguardian review pipeline.

The definitions below are a shallow embedding of the Python sources
`backend/app/models.py`, `backend/app/runner.py` and `backend/app/graph.py`:

* JSON values (as produced by `json.loads`) are modelled by `Json`, with
  `Json.null` standing for Python `None`; JSON numbers are modelled exactly
  as rationals.
* A Python `CmdResult` dict is modelled by the structure `CmdResult`; an
  `Option` field with value `none` models a key that is missing from the
  dict (or, for `json`, present with value `None` — the two are
  indistinguishable to every consumer, which only calls `.get`).
* Code that can raise (`len`, iteration, `.get` on a non-dict, `.upper` on a
  non-string, slicing) is modelled in the `Except String` monad; the error
  string names the Python exception.
* External processes and `json.loads` are collaborators outside the
  repository; they are modelled by the `Sys` record of oracles.  Each tool
  runner returns its `CmdResult` together with the list of argument vectors
  of the processes it spawned.
-/

set_option maxHeartbeats 1000000
set_option maxRecDepth 8000

namespace Infraguardian

/-- JSON values as returned by json.loads; `null` models Python None. -/
inductive Json where
  | null
  | bool (b : Bool)
  | num (q : Rat)
  | str (s : String)
  | arr (elems : List Json)
  | obj (fields : List (String × Json))
  deriving Repr

/-- Python truthiness of a JSON value (None, 0, empty string/list/dict are falsy). -/
def Json.truthy : Json → Bool
  | .null => false
  | .bool b => b
  | .num q => q != 0
  | .str s => s != ""
  | .arr l => !l.isEmpty
  | .obj fs => !fs.isEmpty

def Json.isStr : Json → Bool
  | .str _ => true
  | _ => false

/-- Dictionary lookup on the fields of a JSON object: Python `d.get(k)`. -/
def jlookup (fs : List (String × Json)) (k : String) : Option Json :=
  (fs.find? (fun kv => kv.1 = k)).map (fun kv => kv.2)

/-- Truthiness of the result of a Python `.get` (absent key means None, falsy). -/
def jTruthy (o : Option Json) : Bool :=
  match o with
  | none => false
  | some v => v.truthy

/-- Truthiness of an optional string field (absent key or empty string is falsy). -/
def sTruthy (o : Option String) : Bool :=
  match o with
  | none => false
  | some s => s != ""

/-- Python `len(v)`: defined for lists, strings and dicts, raises TypeError otherwise. -/
def pyLen : Json → Except String Nat
  | .arr l => .ok l.length
  | .str s => .ok s.length
  | .obj fs => .ok fs.length
  | _ => .error "TypeError: object has no len()"

/-- Python iteration `for x in v`: lists yield elements, strings yield
one-character strings, dicts yield their keys; other values raise TypeError. -/
def pyIter : Json → Except String (List Json)
  | .arr l => .ok l
  | .str s => .ok (s.data.map (fun c => .str (String.mk [c])))
  | .obj fs => .ok (fs.map (fun kv => .str kv.1))
  | _ => .error "TypeError: object is not iterable"

/-- Python slicing `v[:5]`: lists and strings slice; a dict (or any other
value) raises TypeError.  A string slice is a string, so the elements seen by
a subsequent comprehension are its characters. -/
def pySlice5 : Json → Except String (List Json)
  | .arr l => .ok (l.take 5)
  | .str s => .ok ((s.data.take 5).map (fun c => .str (String.mk [c])))
  | _ => .error "TypeError: object is not subscriptable by a slice"

/-- Python `v.get(k, d)`: only dicts have `.get`; anything else raises AttributeError. -/
def pyGetD (v : Json) (k : String) (d : Json) : Except String Json :=
  match v with
  | .obj fs => .ok ((jlookup fs k).getD d)
  | _ => .error "AttributeError: object has no attribute get"

/-- Python `v.get(k)` with no default. -/
def pyGetOpt (v : Json) (k : String) : Except String (Option Json) :=
  match v with
  | .obj fs => .ok (jlookup fs k)
  | _ => .error "AttributeError: object has no attribute get"

/-- Python `s.upper()` on ASCII strings (all severity vocabularies are
ASCII): uppercase each character. -/
def pyUpper (s : String) : String := String.mk (s.data.map Char.toUpper)

/-! ### Python float() on strings: models `float(x)` for decimal literals -/

def digitsToNat (cs : List Char) : Nat :=
  cs.foldl (fun a c => a * 10 + (c.toNat - 48)) 0

def parseSign : List Char → (Bool × List Char)
  | '-' :: rest => (true, rest)
  | '+' :: rest => (false, rest)
  | cs => (false, cs)

def parseUnsignedDec (cs : List Char) : Option Rat :=
  let ip := cs.takeWhile (fun c => c != '.')
  let rest := cs.dropWhile (fun c => c != '.')
  match rest with
  | [] =>
    if !ip.isEmpty && ip.all Char.isDigit then some ((digitsToNat ip : Nat) : Rat) else none
  | _ :: fp =>
    if (!ip.isEmpty || !fp.isEmpty) && ip.all Char.isDigit && fp.all Char.isDigit then
      some (((digitsToNat ip : Nat) : Rat) + ((digitsToNat fp : Nat) : Rat) / ((10 : Rat) ^ fp.length))
    else none

def parseSignedDec (cs : List Char) : Option Rat :=
  let sb := parseSign cs
  (parseUnsignedDec sb.2).map (fun q => if sb.1 then -q else q)

def parseSignedInt (cs : List Char) : Option Int :=
  let sb := parseSign cs
  if !sb.2.isEmpty && sb.2.all Char.isDigit then
    some (if sb.1 then -((digitsToNat sb.2 : Nat) : Int) else ((digitsToNat sb.2 : Nat) : Int))
  else none

/-- The whitespace stripping float() applies to its string argument. -/
def pyStrip (cs : List Char) : List Char :=
  ((cs.dropWhile Char.isWhitespace).reverse.dropWhile Char.isWhitespace).reverse

/-- Models Python `float(s)` on decimal literals with optional sign, fraction
and exponent, after stripping surrounding whitespace.  The special spellings
`inf` and `nan` and underscore separators are outside the inputs considered
here and are mapped to `none` (a raised ValueError is `none` as well, since
the only caller swallows the exception). -/
def parsePyFloat (s : String) : Option Rat :=
  let cs := pyStrip s.data
  let mant := cs.takeWhile (fun c => c != 'e' && c != 'E')
  let rest := cs.dropWhile (fun c => c != 'e' && c != 'E')
  match rest with
  | [] => parseSignedDec mant
  | _ :: ex => do
    let m ← parseSignedDec mant
    let e ← parseSignedInt ex
    pure (m * (10 : Rat) ^ e)

/-- Models Python `float(v)` on a value decoded from JSON: numbers convert
exactly, booleans to 0/1, strings are parsed; None, lists and dicts raise
TypeError, which the caller catches, so they are `none`. -/
def pyFloat : Json → Option Rat
  | .num q => some q
  | .bool b => some (if b then 1 else 0)
  | .str s => parsePyFloat s
  | _ => none

/-! ### runner.py: command results and the external-process interface -/

/-- The dict returned by `_run` (runner.py lines 11-21): always carries all
five keys. -/
structure RunRes where
  ok : Bool
  code : Int
  stdout : String
  stderr : String
  cmd : List String
  deriving Repr

/-- A `CmdResult` dict.  A `none` field models a key that the producing code
did not put into the dict (for `json`, also a key present with value `None`;
every consumer reads these fields only through `.get`, which cannot tell the
two apart). -/
structure CmdResult where
  ok : Bool := false
  code : Option Int := none
  stdout : Option String := none
  stderr : Option String := none
  json : Option Json := none
  raw : Option RunRes := none
  cmd : Option (List String) := none
  deriving Repr

/-- The `_run` dict viewed as a `CmdResult` (e.g. when `terraform_plan`
returns a failing sub-step's dict unchanged). -/
def RunRes.toCmd (r : RunRes) : CmdResult :=
  { ok := r.ok, code := some r.code, stdout := some r.stdout, stderr := some r.stderr,
    cmd := some r.cmd }

/-- The outcome of one spawned process. -/
structure ProcOut where
  code : Int
  stdout : String
  stderr : String

/-- The environment of external collaborators: `which` resolves a binary on
PATH (shutil.which), `run` spawns a process in a working directory
(subprocess.run; `.error` models a raised spawn exception), and `jsonLoads`
models `json.loads`, with `none` for unparseable input. -/
structure Sys where
  which : String → Bool
  run : String → List String → Except String ProcOut
  jsonLoads : String → Option Json

/-- runner.py `_run`: spawn, capture exit code and output; a spawn exception
becomes a failed result with code -1. -/
def _run (sys : Sys) (cwd : String) (cmd : List String) : RunRes :=
  match sys.run cwd cmd with
  | .ok p => { ok := p.code == 0, code := p.code, stdout := p.stdout, stderr := p.stderr, cmd := cmd }
  | .error e => { ok := false, code := -1, stdout := "", stderr := e, cmd := cmd }

/-- runner.py `_safe_json`: parse failure yields None. -/
def _safe_json (sys : Sys) (s : String) : Option Json := sys.jsonLoads s

def tfInitCmd : List String := ["terraform", "init", "-backend=false"]
def tfPlanCmd : List String := ["terraform", "plan", "-no-color", "-out", "tf.plan"]
def tfShowCmd : List String := ["terraform", "show", "-json", "tf.plan"]
def tfsecCmd : List String := ["tfsec", "--format", "json", "--no-color", "."]
def checkovCmd : List String := ["checkov", "-d", ".", "-o", "json"]
def infracostCmd : List String := ["infracost", "breakdown", "--path", ".", "--format", "json"]

/-- runner.py `terraform_plan` (lines 23-31): three sub-steps with early
return on the first failure.  The second component is the trace of spawned
argument vectors. -/
def terraform_plan (sys : Sys) (repo : String) : CmdResult × List (List String) :=
  if !sys.which "terraform" then
    ({ ok := false, stderr := some "terraform not found" }, [])
  else
    let init := _run sys repo tfInitCmd
    if !init.ok then (init.toCmd, [tfInitCmd])
    else
      let plan := _run sys repo tfPlanCmd
      if !plan.ok then (plan.toCmd, [tfInitCmd, tfPlanCmd])
      else
        let shw := _run sys repo tfShowCmd
        ({ ok := shw.ok, json := _safe_json sys shw.stdout, raw := some shw },
         [tfInitCmd, tfPlanCmd, tfShowCmd])

/-- runner.py `tfsec_scan` (lines 33-37). -/
def tfsec_scan (sys : Sys) (repo : String) : CmdResult × List (List String) :=
  if !sys.which "tfsec" then
    ({ ok := false, stderr := some "tfsec not found" }, [])
  else
    let res := _run sys repo tfsecCmd
    ({ ok := res.ok, json := _safe_json sys res.stdout, raw := some res }, [tfsecCmd])

/-- runner.py `checkov_scan` (lines 39-43). -/
def checkov_scan (sys : Sys) (repo : String) : CmdResult × List (List String) :=
  if !sys.which "checkov" then
    ({ ok := false, stderr := some "checkov not found" }, [])
  else
    let res := _run sys repo checkovCmd
    ({ ok := res.ok, json := _safe_json sys res.stdout, raw := some res }, [checkovCmd])

/-- runner.py `infracost_breakdown` (lines 45-49). -/
def infracost_breakdown (sys : Sys) (repo : String) : CmdResult × List (List String) :=
  if !sys.which "infracost" then
    ({ ok := false, stderr := some "infracost not found" }, [])
  else
    let res := _run sys repo infracostCmd
    ({ ok := res.ok, json := _safe_json sys res.stdout, raw := some res }, [infracostCmd])

/-! ### runner.py: aggregate (lines 51-112) -/

/-- The severity-histogram dict, created with the five fixed keys
CRITICAL, HIGH, MEDIUM, LOW, UNKNOWN (runner.py line 93). -/
structure SevCounts where
  critical : Nat := 0
  high : Nat := 0
  medium : Nat := 0
  low : Nat := 0
  unknown : Nat := 0
  deriving Repr, DecidableEq

def SevCounts.zero : SevCounts := {}

def SevCounts.total (c : SevCounts) : Nat :=
  c.critical + c.high + c.medium + c.low + c.unknown

/-- The keys of the `counts` dict: `sev not in counts` tests against these. -/
def sevKeys : List String := ["CRITICAL", "HIGH", "MEDIUM", "LOW", "UNKNOWN"]

/-- `counts[sev] += 1` for a severity that has already been normalized into
the key set (the catch-all branch is unreachable after normalization). -/
def SevCounts.bump (c : SevCounts) (sev : String) : SevCounts :=
  if sev = "CRITICAL" then { c with critical := c.critical + 1 }
  else if sev = "HIGH" then { c with high := c.high + 1 }
  else if sev = "MEDIUM" then { c with medium := c.medium + 1 }
  else if sev = "LOW" then { c with low := c.low + 1 }
  else { c with unknown := c.unknown + 1 }

/-- The or-chain of runner.py line 95:
`f.get(sev_key) or f.get("severity_label") or "UNKNOWN"`
(the first truthy value, defaulting to the string UNKNOWN). -/
def sevRaw (sevKey : String) (fs : List (String × Json)) : Json :=
  if jTruthy (jlookup fs sevKey) then (jlookup fs sevKey).getD .null
  else if jTruthy (jlookup fs "severity_label") then (jlookup fs "severity_label").getD .null
  else .str "UNKNOWN"

/-- runner.py line 95: `(f.get(sev_key) or f.get("severity_label") or
"UNKNOWN").upper()`.  Raises AttributeError when `f` is not a dict or when
the selected value is truthy but not a string. -/
def sevNorm (sevKey : String) (f : Json) : Except String String :=
  match f with
  | .obj fs =>
    match sevRaw sevKey fs with
    | .str s => .ok (pyUpper s)
    | _ => .error "AttributeError: object has no attribute upper"
  | _ => .error "AttributeError: object has no attribute get"

/-- runner.py lines 95-96: the severity string after uppercasing and the
`sev not in counts` normalization to UNKNOWN. -/
def sevBucket (sevKey : String) (f : Json) : Except String String := do
  let sev ← sevNorm sevKey f
  pure (if !(sevKeys.contains sev) then "UNKNOWN" else sev)

/-- The `for f in findings` loop of `sev_count` over an already-produced list. -/
def sevFold (sevKey : String) (c0 : SevCounts) (l : List Json) : Except String SevCounts :=
  l.foldlM (fun counts f => do
    let sev ← sevBucket sevKey f
    pure (counts.bump sev)) c0

/-- runner.py `sev_count` (lines 92-98): iterate over `findings` (which may
be any value the surrounding code extracted) and build the histogram. -/
def sev_count (findings : Json) (sevKey : String) : Except String SevCounts := do
  let l ← pyIter findings
  sevFold sevKey SevCounts.zero l

structure ToolSummary where
  count : Nat
  severities : SevCounts
  deriving Repr, DecidableEq

/-- runner.py lines 100-101: the per-tool summary dict
`{"count": len(findings), "severities": sev_count(findings)}` with CPython's
left-to-right evaluation of the dict literal. -/
def summarize (findings : Json) : Except String ToolSummary := do
  let n ← pyLen findings
  let c ← sev_count findings "severity"
  pure { count := n, severities := c }

/-- One row of `top_tfsec`/`top_checkov`: the identifier key is `rule_id`
for tfsec rows (emitted under the dict key `rule`) and `check_id` for
checkov rows. -/
structure TopIssue where
  ident : Option Json
  severity : Option Json
  resource : Option Json
  deriving Repr

/-- The projection of one top-issue row (runner.py lines 105 and 109):
three `.get` reads on the finding dict. -/
def topProj (identKey : String) (f : Json) : Except String TopIssue := do
  let i ← pyGetOpt f identKey
  let s ← pyGetOpt f "severity"
  let r ← pyGetOpt f "resource"
  pure { ident := i, severity := s, resource := r }

/-- runner.py lines 104-111: slice off the first five findings and project
identifier, severity and resource. -/
def topBlock (findings : Json) (identKey : String) : Except String (List TopIssue) := do
  let firstFive ← pySlice5 findings
  firstFive.mapM (topProj identKey)

/-- The aggregate dict built by runner.py `aggregate`. -/
structure Agg where
  warnings : List String
  tfsec : ToolSummary
  checkov : ToolSummary
  monthly_cost : Option Rat
  top_tfsec : List TopIssue
  top_checkov : List TopIssue
  deriving Repr

/-- runner.py lines 54-61 (the tfsec block): extract the findings value and
the possible warning.  The extracted value is whatever sat under `results`,
not necessarily a list. -/
def tfsecBlock (tfsec : CmdResult) : Json × List String :=
  if jTruthy tfsec.json then
    (match tfsec.json.getD .null with
     | .obj fs => (jlookup fs "results").getD (.arr [])
     | _ => .arr [], [])
  else if sTruthy tfsec.stderr then
    (.arr [], ["tfsec: " ++ tfsec.stderr.getD ""])
  else (.arr [], [])

/-- runner.py line 70/72: `fw.get("results", {}).get("failed_checks", [])`
followed by the `+=` extension, which iterates the value. -/
def extractModule (fw : Json) : Except String (List Json) := do
  let r ← pyGetD fw "results" (.obj [])
  let fc ← pyGetD r "failed_checks" (.arr [])
  pyIter fc

/-- The `for fw in cj` accumulation loop of the checkov block. -/
def modulesFold (acc : List Json) (fws : List Json) : Except String (List Json) :=
  fws.foldlM (fun acc fw => do
    let items ← extractModule fw
    pure (acc ++ items)) acc

/-- runner.py lines 63-74 (the checkov block): the structured output may be a
list of per-module dicts or one dict; `checkov_findings` is always a real
Python list. -/
def checkovBlock (checkov : CmdResult) : Except String (List Json × List String) :=
  if jTruthy checkov.json then
    match checkov.json.getD .null with
    | .arr fws => do
        let items ← modulesFold [] fws
        pure (items, [])
    | .obj fs => do
        let items ← extractModule (.obj fs)
        pure (items, [])
    | _ => pure ([], [])
  else if sTruthy checkov.stderr then
    pure ([], ["checkov: " ++ checkov.stderr.getD ""])
  else pure ([], [])

/-- runner.py lines 82-88: one iteration of the projects loop.  A missing or
None cost is skipped; `float` failure is swallowed by the bare except; the
running total starts as None and becomes a number on the first parsed cost. -/
def projectStep (t : Option Rat) (p : Json) : Except String (Option Rat) := do
  let s ← pyGetD p "summary" (.obj [])
  let tv ← pyGetOpt s "totalMonthlyCost"
  match tv with
  | none => pure t
  | some .null => pure t
  | some v =>
    match pyFloat v with
    | none => pure t
    | some val =>
      match t with
      | none => pure (some val)
      | some x => pure (some (x + val))

def projectsFold (t : Option Rat) (ps : List Json) : Except String (Option Rat) :=
  ps.foldlM projectStep t

/-- runner.py lines 76-90 (the infracost block).  The guard is
`infr.get("json") and isinstance(infr["json"], dict)`; a truthy non-dict
json therefore also falls through to the stderr branch. -/
def infracostBlock (infr : CmdResult) : Except String (Option Rat × List String) :=
  if jTruthy infr.json then
    match infr.json.getD .null with
    | .obj fs => do
        let projects := (jlookup fs "projects").getD (.arr [])
        let ps ← pyIter projects
        let t ← projectsFold none ps
        pure (t, [])
    | _ =>
      if sTruthy infr.stderr then pure (none, ["infracost: " ++ infr.stderr.getD ""])
      else pure (none, [])
  else if sTruthy infr.stderr then
    pure (none, ["infracost: " ++ infr.stderr.getD ""])
  else pure (none, [])

/-- `results.get(name, {})` on the tool-name → CmdResult mapping. -/
def dictGet (m : List (String × CmdResult)) (k : String) : Option CmdResult :=
  (m.find? (fun kv => kv.1 = k)).map (fun kv => kv.2)

/-- runner.py `aggregate` (lines 51-112), with the statements in source
order: the three per-tool extraction blocks run first (warnings accumulate in
tfsec, checkov, infracost order), then the summary dicts, then the top-issue
projections. -/
def aggregate (results : List (String × CmdResult)) : Except String Agg := do
  let tfsec := (dictGet results "tfsec").getD {}
  let tf := tfsecBlock tfsec
  let checkov := (dictGet results "checkov").getD {}
  let ck ← checkovBlock checkov
  let infr := (dictGet results "infracost").getD {}
  let ic ← infracostBlock infr
  let tfsecSummary ← summarize tf.1
  let checkovSummary ← summarize (.arr ck.1)
  let top_tfsec ← topBlock tf.1 "rule_id"
  let top_checkov ← topBlock (.arr ck.1) "check_id"
  pure { warnings := tf.2 ++ ck.2 ++ ic.2,
         tfsec := tfsecSummary, checkov := checkovSummary,
         monthly_cost := ic.1,
         top_tfsec := top_tfsec, top_checkov := top_checkov }

/-! ### models.py: the pipeline data model -/

structure RepoContext where
  repo_dir : String
  diff_summary : Option String := none
  policy_snippets : Option (List String) := none

/-- models.py `PlanStep`.  `tool` is one of the ToolName literals; the
`args` mapping is carried but never read by the executor. -/
structure PlanStep where
  tool : String
  args : List (String × Json) := []
  deriving Repr

structure ReviewPlan where
  steps : List PlanStep
  justification : String
  deriving Repr

/-- models.py `Findings`, as populated by graph.py `tools_node`.  The
`tfsec`/`checkov` fields hold either the default empty dict (`none`) or a
summary dict; `infracost` holds either the default empty dict (`none`) or
the one-key dict `{"monthly_cost": c}` where `c` itself may be None
(`some none`).  The unused `conftest`/`gitleaks` fields are never written or
read in this version and are omitted. -/
structure Findings where
  tfsec : Option ToolSummary := none
  checkov : Option ToolSummary := none
  terraform : CmdResult := {}
  infracost : Option (Option Rat) := none
  warnings : List String := []

structure Synthesis where
  markdown : String
  risks_ranked : List Json := []
  controls : List String := []

structure PatchSuggestion where
  patch_unified_diff : Option String := none
  notes : Option String := none

structure AgentState where
  ctx : RepoContext
  plan : Option ReviewPlan := none
  findings : Findings := {}
  synthesis : Option Synthesis := none
  patch : Option PatchSuggestion := none

/-! ### graph.py: planner_node (lines 36-83) -/

/-- graph.py `_shorten`: a falsy text is returned unchanged; otherwise it is
cut to `maxChars` characters with an explicit truncation marker. -/
def _shorten (text : Option String) (maxChars : Nat) : Option String :=
  match text with
  | none => none
  | some t =>
    if t = "" then some t
    else if t.length ≤ maxChars then some t
    else some ((t.take maxChars) ++ "\n...[truncated " ++ toString (t.length - maxChars) ++ " chars]")

def allowedTools : List String :=
  ["terraform_plan", "tfsec", "checkov", "conftest", "infracost", "gitleaks"]

/-- The user payload sent to the planning LLM (graph.py lines 57-61). -/
structure PlannerRequest where
  diff_summary : Option String
  policy_snippets : List String
  tools : List String
  deriving Repr

def planner_request (ctx : RepoContext) : PlannerRequest :=
  { diff_summary := _shorten ctx.diff_summary 2000,
    policy_snippets := (ctx.policy_snippets.getD []).take 6,
    tools := allowedTools }

/-- The deterministic default steps (graph.py lines 41-46 and 75-80). -/
def defaultSteps : List PlanStep :=
  [{ tool := "terraform_plan" }, { tool := "tfsec" }, { tool := "checkov" }, { tool := "infracost" }]

/-- The fallback plan when no LLM is configured (graph.py lines 40-48). -/
def fallbackPlanNoLLM : ReviewPlan :=
  { steps := defaultSteps,
    justification := "Deterministic fallback (no LLM/model unavailable)." }

/-- The fallback plan built in the except branch (graph.py lines 74-82);
`e` is the text of the caught exception. -/
def fallbackPlanFailed (e : String) : ReviewPlan :=
  { steps := defaultSteps,
    justification := "LLM planning failed: " ++ e ++ ". Using default plan." }

/-- graph.py `planner_node`.  The optional planning service is the
composition of `_llm()` with `with_structured_output(ReviewPlan).invoke`:
`none` models a missing/unconstructible LLM, `.error e` a raised transport
or response-parsing failure, `.ok plan` a structured response.  A returned
plan with zero steps raises ValueError inside the same try, so it lands in
the except branch with that message. -/
def planner_node (svc : Option (PlannerRequest → Except String ReviewPlan))
    (st : AgentState) : AgentState :=
  match svc with
  | none => { st with plan := some fallbackPlanNoLLM }
  | some call =>
    match call (planner_request st.ctx) with
    | .error e => { st with plan := some (fallbackPlanFailed e) }
    | .ok plan =>
      if plan.steps.isEmpty then
        { st with plan := some (fallbackPlanFailed "LLM returned an empty plan.") }
      else { st with plan := some plan }

/-! ### graph.py: tools_node (lines 85-112) -/

/-- The sort key of graph.py line 90: `0 if s.tool == "terraform_plan" else 1`. -/
def sortKey (s : PlanStep) : Nat := if s.tool = "terraform_plan" then 0 else 1

/-- Stable insertion of an element into an already sorted list: the element
goes before the first position with a strictly greater or equal key, which
keeps it ahead of later equal-key elements and behind earlier ones. -/
def insertByKey (key : PlanStep → Nat) (x : PlanStep) : List PlanStep → List PlanStep
  | [] => [x]
  | y :: ys => if key x ≤ key y then x :: y :: ys else y :: insertByKey key x ys

/-- A stable sort by key; Python's `sorted` is specified to be stable, and
any two stable sorts by the same key agree, so this models line 90. -/
def pysorted (key : PlanStep → Nat) : List PlanStep → List PlanStep
  | [] => []
  | x :: xs => insertByKey key x (pysorted key xs)

/-- graph.py line 90: `sorted(steps, key=lambda s: 0 if s.tool == "terraform_plan" else 1)`. -/
def toolsOrdered (steps : List PlanStep) : List PlanStep := pysorted sortKey steps

/-- Python dict assignment `m[k] = v`: replace in place if the key exists,
otherwise append, preserving insertion order. -/
def dictSet (m : List (String × CmdResult)) (k : String) (v : CmdResult) :
    List (String × CmdResult) :=
  if m.any (fun kv => kv.1 = k) then m.map (fun kv => if kv.1 = k then (k, v) else kv)
  else m ++ [(k, v)]

/-- One iteration of the dispatch loop (graph.py lines 92-102).  Steps whose
tool is not one of the four wired tools (conftest and gitleaks, per the
"hooks later" comment at line 102) change nothing. -/
def runStep (sys : Sys) (repo : String)
    (acc : List (String × CmdResult) × List (List String)) (step : PlanStep) :
    List (String × CmdResult) × List (List String) :=
  match step.tool with
  | "terraform_plan" =>
    let r := terraform_plan sys repo
    (dictSet acc.1 "terraform" r.1, acc.2 ++ r.2)
  | "tfsec" =>
    let r := tfsec_scan sys repo
    (dictSet acc.1 "tfsec" r.1, acc.2 ++ r.2)
  | "checkov" =>
    let r := checkov_scan sys repo
    (dictSet acc.1 "checkov" r.1, acc.2 ++ r.2)
  | "infracost" =>
    let r := infracost_breakdown sys repo
    (dictSet acc.1 "infracost" r.1, acc.2 ++ r.2)
  | _ => acc

/-- The executor core of `tools_node`: order the steps, then run them,
collecting the results mapping and the trace of spawned processes. -/
def execTools (sys : Sys) (repo : String) (steps : List PlanStep) :
    List (String × CmdResult) × List (List String) :=
  (toolsOrdered steps).foldl (runStep sys repo) ([], [])

/-- graph.py `tools_node` (lines 85-112): run the planned tools and store the
aggregated findings.  An exception raised by `aggregate` propagates out of
the node.  The second component is the spawn trace.  The working directory
is the context's repo_dir (Path(...).resolve() only normalizes the path). -/
def tools_node (sys : Sys) (st : AgentState) :
    Except String (AgentState × List (List String)) :=
  let repo := st.ctx.repo_dir
  let steps := match st.plan with | some p => p.steps | none => []
  let rt := execTools sys repo steps
  match aggregate rt.1 with
  | .error e => .error e
  | .ok agg =>
    .ok ({ st with findings :=
            { tfsec := some agg.tfsec,
              checkov := some agg.checkov,
              terraform := (dictGet rt.1 "terraform").getD {},
              infracost := some agg.monthly_cost,
              warnings := agg.warnings } }, rt.2)

/-! ### graph.py: synth_node (lines 114-157) and patcher_node -/

/-- str() of the severity-histogram dict, in its fixed insertion order. -/
def SevCounts.pyRepr (c : SevCounts) : String :=
  "\x7b\x27CRITICAL\x27: " ++ toString c.critical ++
  ", \x27HIGH\x27: " ++ toString c.high ++
  ", \x27MEDIUM\x27: " ++ toString c.medium ++
  ", \x27LOW\x27: " ++ toString c.low ++
  ", \x27UNKNOWN\x27: " ++ toString c.unknown ++ "\x7d"

/-- Minimal exponent k with den dividing 10 ^ k (for decimal-valued rationals). -/
def decExp (den : Nat) : Nat :=
  ((List.range 21).find? (fun k => 10 ^ k % den = 0)).getD 0

/-- The f-string rendering of a float whose value is a decimal rational:
Python float repr is the shortest round-tripping decimal, which for the
decimal-exact values arising here is the decimal expansion with trailing
zeros dropped and at least one fractional digit (e.g. 200.0, 120.5). -/
def pyFloatRepr (q : Rat) : String :=
  let neg := q < 0
  let a := if neg then -q else q
  let k := decExp a.den
  let n := (a * (10 : Rat) ^ k).num.toNat
  let ipart := n / 10 ^ k
  let fdig := n % 10 ^ k
  let fstr :=
    let padded := String.mk (List.replicate (k - (toString fdig).length) '0') ++ toString fdig
    let trimmed := String.mk (padded.data.reverse.dropWhile (fun c => c = '0')).reverse
    if trimmed = "" then "0" else trimmed
  (if neg then "-" else "") ++ toString ipart ++ "." ++ fstr

/-- f-string rendering of `tfsec.get("count", 0)`. -/
def summaryCountStr (o : Option ToolSummary) : String :=
  match o with
  | none => "0"
  | some t => toString t.count

/-- f-string rendering of `tfsec.get("severities", \x7b\x7d)`. -/
def summarySevStr (o : Option ToolSummary) : String :=
  match o with
  | none => "\x7b\x7d"
  | some t => t.severities.pyRepr

/-- f-string rendering of `cost.get("monthly_cost", "unavailable")`: the
default only fires when the dict has no `monthly_cost` key at all; a key
present with value None renders as the string None. -/
def costValueStr (c : Option (Option Rat)) : String :=
  match c with
  | none => "unavailable"
  | some none => "None"
  | some (some v) => pyFloatRepr v

/-- str() of a summary dict, used by the degraded LLM-failure fallback. -/
def summaryRepr (o : Option ToolSummary) : String :=
  match o with
  | none => "\x7b\x7d"
  | some t =>
    "\x7b\x27count\x27: " ++ toString t.count ++
    ", \x27severities\x27: " ++ t.severities.pyRepr ++ "\x7d"

/-- str() of the infracost dict, used by the degraded LLM-failure fallback. -/
def costDictRepr (c : Option (Option Rat)) : String :=
  match c with
  | none => "\x7b\x7d"
  | some none => "\x7b\x27monthly_cost\x27: None\x7d"
  | some (some v) => "\x7b\x27monthly_cost\x27: " ++ pyFloatRepr v ++ "\x7d"

/-- graph.py `synth_node`.  With no synthesis service (`_llm()` returned
None) it renders the deterministic template of lines 116-130; with a service
it returns the service's markdown (lines 139-146, with the `or "(empty)"`
default) or the degraded fallback report of lines 147-156. -/
def synth_node (svc : Option (Findings → Except String String)) (st : AgentState) : AgentState :=
  match svc with
  | none =>
    let tfsec := st.findings.tfsec
    let checkov := st.findings.checkov
    let cost := st.findings.infracost
    let warnings := st.findings.warnings
    let md : List String :=
      ["# InfraGuardian Report (deterministic)",
       "**tfsec**: " ++ summaryCountStr tfsec ++ " issues — " ++ summarySevStr tfsec,
       "**Checkov**: " ++ summaryCountStr checkov ++ " issues — " ++ summarySevStr checkov,
       "**Estimated Monthly Cost**: " ++ costValueStr cost]
    let md := if !warnings.isEmpty then
        md ++ ["> Warnings: " ++ String.intercalate "; " warnings]
      else md
    { st with synthesis := some { markdown := String.intercalate "\n\n" md } }
  | some call =>
    match call st.findings with
    | .ok md =>
      { st with synthesis := some { markdown := if md = "" then "(empty)" else md } }
    | .error e =>
      { st with synthesis := some { markdown :=
          "# InfraGuardian Report (fallback)\n\n" ++
          "LLM synthesis failed: " ++ e ++ "\n\n" ++
          "- tfsec: " ++ summaryRepr st.findings.tfsec ++ "\n" ++
          "- checkov: " ++ summaryRepr st.findings.checkov ++ "\n" ++
          "- cost: " ++ costDictRepr st.findings.infracost ++ "\n" } }

/-- graph.py `patcher_node` (lines 159-163). -/
def patcher_node (st : AgentState) : AgentState :=
  { st with patch := some ({ notes := some "Auto-fix patch generation arrives in the next milestone." } : PatchSuggestion) }

/-! ### Helper lemmas -/

@[simp] theorem exbind_ok (a : α) (f : α → Except String β) :
    (Except.ok a >>= f : Except String β) = f a := rfl

@[simp] theorem exbind_err (e : String) (f : α → Except String β) :
    (Except.error e >>= f : Except String β) = Except.error e := rfl

@[simp] theorem expure_ok (a : α) : (pure a : Except String α) = Except.ok a := rfl

@[simp] theorem jlookup_nil (k : String) : jlookup [] k = none := rfl

/-- A concrete environment with no tool binaries on PATH. -/
def sysAbsent : Sys :=
  { which := fun _ => false, run := fun _ _ => .error "unused", jsonLoads := fun _ => none }

/-! ### C4: planner fallback -/

/-- Claim C4: planner_node never fails outward: when no planning service is
configured, or the service call raises, or the returned plan has zero steps,
the stored plan is the deterministic default with the four primary tools and
non-empty steps, and in the failure cases the justification includes the
failure reason. -/
theorem planner_fallback (svc : Option (PlannerRequest → Except String ReviewPlan))
    (st : AgentState)
    (h : svc = none
       ∨ ∃ call, svc = some call ∧
          ((∃ e, call (planner_request st.ctx) = .error e)
           ∨ ∃ p, call (planner_request st.ctx) = .ok p ∧ p.steps = [])) :
    ∃ rp, (planner_node svc st).plan = some rp ∧ rp.steps = defaultSteps ∧ rp.steps ≠ []
      ∧ (∀ call e, svc = some call → call (planner_request st.ctx) = .error e →
           ∃ a b, rp.justification = a ++ e ++ b)
      ∧ (∀ call p, svc = some call → call (planner_request st.ctx) = .ok p → p.steps = [] →
           ∃ a b, rp.justification = a ++ "LLM returned an empty plan." ++ b) := by
  rcases h with h | ⟨call, hc, hf⟩
  · subst h
    refine ⟨fallbackPlanNoLLM, rfl, rfl, by simp [fallbackPlanNoLLM, defaultSteps], ?_, ?_⟩
    · intro call e hsome; exact absurd hsome (by simp)
    · intro call p hsome; exact absurd hsome (by simp)
  · subst hc
    rcases hf with ⟨e, he⟩ | ⟨p, hp, hps⟩
    · refine ⟨fallbackPlanFailed e, by simp [planner_node, he], rfl,
        by simp [fallbackPlanFailed, defaultSteps], ?_, ?_⟩
      · intro call2 e2 hsome he2
        obtain rfl : call2 = call := by injection hsome.symm
        rw [he] at he2
        obtain rfl : e = e2 := by injection he2
        exact ⟨"LLM planning failed: ", ". Using default plan.", rfl⟩
      · intro call2 p2 hsome he2 _
        obtain rfl : call2 = call := by injection hsome.symm
        rw [he] at he2; exact absurd he2 (by simp)
    · refine ⟨fallbackPlanFailed "LLM returned an empty plan.",
        by simp [planner_node, hp, hps], rfl,
        by simp [fallbackPlanFailed, defaultSteps], ?_, ?_⟩
      · intro call2 e2 hsome he2
        obtain rfl : call2 = call := by injection hsome.symm
        rw [hp] at he2; exact absurd he2 (by simp)
      · intro call2 p2 hsome _ _
        exact ⟨"LLM planning failed: ", ". Using default plan.", rfl⟩

/-- Witness for C4 at the concrete unconfigured service. -/
theorem planner_fallback_witness :
    ∃ rp, (planner_node none { ctx := { repo_dir := "repo" } }).plan = some rp
      ∧ rp.steps = defaultSteps ∧ rp.steps ≠ []
      ∧ (∀ call e, (none : Option (PlannerRequest → Except String ReviewPlan)) = some call →
           call (planner_request ({ ctx := { repo_dir := "repo" } : AgentState }).ctx) = .error e →
           ∃ a b, rp.justification = a ++ e ++ b)
      ∧ (∀ call p, (none : Option (PlannerRequest → Except String ReviewPlan)) = some call →
           call (planner_request ({ ctx := { repo_dir := "repo" } : AgentState }).ctx) = .ok p →
           p.steps = [] →
           ∃ a b, rp.justification = a ++ "LLM returned an empty plan." ++ b) :=
  planner_fallback none { ctx := { repo_dir := "repo" } } (Or.inl rfl)

/-! ### C6: severity normalization -/

theorem bucket_eq (s : String) :
    (if (!sevKeys.contains s) = true then "UNKNOWN" else s) =
      (if sevKeys.contains s = true then s else "UNKNOWN") := by
  cases hc : sevKeys.contains s <;> simp

theorem sevBucket_of_norm (f : Json) (s : String) (h : sevNorm "severity" f = .ok s) :
    sevBucket "severity" f = .ok (if sevKeys.contains s then s else "UNKNOWN") := by
  simp only [sevBucket, h, exbind_ok]
  exact congrArg Except.ok (bucket_eq s)

theorem sevNorm_sev (fs : List (String × Json)) (s : String)
    (h : jlookup fs "severity" = some (.str s)) (ht : (s != "") = true) :
    sevNorm "severity" (.obj fs) = .ok (pyUpper s) := by
  simp only [sevNorm, sevRaw, h, jTruthy, Json.truthy, ht, if_true, Option.getD_some]

theorem sevNorm_label (fs : List (String × Json)) (s : String)
    (h : jlookup fs "severity" = none)
    (hl : jlookup fs "severity_label" = some (.str s)) (ht : (s != "") = true) :
    sevNorm "severity" (.obj fs) = .ok (pyUpper s) := by
  simp only [sevNorm, sevRaw, h, hl, jTruthy, Json.truthy, ht, if_true, Option.getD_some]
  rfl

theorem sevNorm_absent (fs : List (String × Json))
    (h : jlookup fs "severity" = none) (hl : jlookup fs "severity_label" = none) :
    sevNorm "severity" (.obj fs) = .ok "UNKNOWN" := by
  simp only [sevNorm, sevRaw, h, hl, jTruthy]
  rfl

/-- Claim C6: severity normalization reads the severity from either of the
two accepted field names, uppercases it, and buckets it into the fixed set;
a value uppercasing to CRITICAL buckets to CRITICAL, and an absent or
unrecognized severity buckets to UNKNOWN. -/
theorem severity_normalization :
    (∀ (s : String) (fs : List (String × Json)),
       jlookup fs "severity" = some (.str s) → s ≠ "" →
       sevBucket "severity" (.obj fs) =
         .ok (if sevKeys.contains (pyUpper s) then pyUpper s else "UNKNOWN"))
  ∧ (∀ (s : String) (fs : List (String × Json)),
       jlookup fs "severity" = some (.str s) → pyUpper s = "CRITICAL" →
       sevBucket "severity" (.obj fs) = .ok "CRITICAL")
  ∧ (∀ (s : String) (fs : List (String × Json)),
       jlookup fs "severity" = none → jlookup fs "severity_label" = some (.str s) → s ≠ "" →
       sevBucket "severity" (.obj fs) =
         .ok (if sevKeys.contains (pyUpper s) then pyUpper s else "UNKNOWN"))
  ∧ (∀ (fs : List (String × Json)),
       jlookup fs "severity" = none → jlookup fs "severity_label" = none →
       sevBucket "severity" (.obj fs) = .ok "UNKNOWN") := by
  refine ⟨?head, ?crit, ?label, ?absent⟩
  case head =>
    intro s fs h hs
    exact sevBucket_of_norm _ _ (sevNorm_sev fs s h (by simp [bne_iff_ne, hs]))
  case crit =>
    intro s fs h hup
    have hs : s ≠ "" := by
      intro he; rw [he] at hup; exact absurd hup (by decide)
    rw [sevBucket_of_norm _ _ (sevNorm_sev fs s h (by simp [bne_iff_ne, hs])), hup]
    rfl
  case label =>
    intro s fs h hl hs
    exact sevBucket_of_norm _ _ (sevNorm_label fs s h hl (by simp [bne_iff_ne, hs]))
  case absent =>
    intro fs h hl
    rw [sevBucket_of_norm _ _ (sevNorm_absent fs h hl)]
    rfl

/-- Witness for C6 at a concrete mixed-case critical finding. -/
theorem severity_normalization_witness :
    sevBucket "severity" (.obj [("severity", .str "cRiTiCaL")]) = .ok "CRITICAL" :=
  severity_normalization.2.1 "cRiTiCaL" [("severity", .str "cRiTiCaL")] rfl (by decide)

/-! ### C8: execution ordering -/

theorem insertByKey_zero (key : PlanStep → Nat) (x : PlanStep) (h : key x = 0)
    (l : List PlanStep) : insertByKey key x l = x :: l := by
  cases l with
  | nil => rfl
  | cons y ys => unfold insertByKey; rw [h]; simp

theorem insertByKey_one (key : PlanStep → Nat) (x : PlanStep) (hx : key x = 1) :
    ∀ (A B : List PlanStep), (∀ a ∈ A, key a = 0) → (∀ b ∈ B, key b = 1) →
    insertByKey key x (A ++ B) = A ++ x :: B := by
  intro A
  induction A with
  | nil =>
    intro B _ hB
    cases B with
    | nil => rfl
    | cons b bs =>
      simp only [List.nil_append]
      unfold insertByKey
      rw [hx, hB b (List.mem_cons_self b bs)]
      simp
  | cons a as ih =>
    intro B hA hB
    simp only [List.cons_append]
    unfold insertByKey
    rw [hx, hA a (List.mem_cons_self a as)]
    rw [if_neg (by decide : ¬(1 ≤ 0))]
    rw [ih B (fun a2 ha2 => hA a2 (List.mem_cons_of_mem a ha2)) hB]

/-- The ordered list of graph.py line 90 is the stable-sort partition:
terraform_plan steps first, in plan order, then all other steps in plan
order. -/
theorem toolsOrdered_partition (steps : List PlanStep) :
    toolsOrdered steps =
      steps.filter (fun s => s.tool == "terraform_plan") ++
      steps.filter (fun s => !(s.tool == "terraform_plan")) := by
  induction steps with
  | nil => rfl
  | cons x xs ih =>
    show insertByKey sortKey x (toolsOrdered xs) = _
    rw [ih]
    by_cases hx : x.tool = "terraform_plan"
    · rw [insertByKey_zero sortKey x (by simp [sortKey, hx])]
      simp [hx]
    · rw [insertByKey_one sortKey x (by simp [sortKey, hx])
        (xs.filter (fun s => s.tool == "terraform_plan"))
        (xs.filter (fun s => !(s.tool == "terraform_plan")))
        (by intro a ha; have := List.of_mem_filter ha
            simp only [beq_iff_eq] at this; simp [sortKey, this])
        (by intro b hb; have := List.of_mem_filter hb
            simp only [Bool.not_eq_true', beq_eq_false_iff_ne, ne_eq] at this
            simp [sortKey, this])]
      simp [hx]

/-- Claim C8: the Tool Executor's execution order is the stable sort of the
plan's steps by the boolean key "is terraform_plan": terraform_plan steps
run first, all other steps keep the plan's insertion order. -/
theorem exec_order_stable (sys : Sys) (repo : String) (steps : List PlanStep) :
    toolsOrdered steps =
      steps.filter (fun s => s.tool == "terraform_plan") ++
      steps.filter (fun s => !(s.tool == "terraform_plan"))
    ∧ execTools sys repo steps =
      (steps.filter (fun s => s.tool == "terraform_plan") ++
       steps.filter (fun s => !(s.tool == "terraform_plan"))).foldl (runStep sys repo) ([], []) := by
  refine ⟨toolsOrdered_partition steps, ?_⟩
  show (toolsOrdered steps).foldl (runStep sys repo) ([], []) = _
  rw [toolsOrdered_partition steps]

/-! ### C9: terraform_plan short-circuits -/

/-- Claim C9: terraform_plan is a three-sub-step sequence (init, plan,
show-as-JSON); if a sub-step fails, the whole result reports failure and the
remaining sub-steps are never spawned. -/
theorem terraform_short_circuit (sys : Sys) (repo : String)
    (h : sys.which "terraform" = true) :
    ((_run sys repo tfInitCmd).ok = false →
        terraform_plan sys repo = ((_run sys repo tfInitCmd).toCmd, [tfInitCmd]) ∧
        (terraform_plan sys repo).1.ok = false)
  ∧ ((_run sys repo tfInitCmd).ok = true → (_run sys repo tfPlanCmd).ok = false →
        terraform_plan sys repo = ((_run sys repo tfPlanCmd).toCmd, [tfInitCmd, tfPlanCmd]) ∧
        (terraform_plan sys repo).1.ok = false)
  ∧ ((_run sys repo tfInitCmd).ok = true → (_run sys repo tfPlanCmd).ok = true →
        (terraform_plan sys repo).2 = [tfInitCmd, tfPlanCmd, tfShowCmd] ∧
        (terraform_plan sys repo).1.ok = (_run sys repo tfShowCmd).ok) := by
  refine ⟨?init, ?plan, ?shw⟩
  case init =>
    intro h1
    have he : terraform_plan sys repo = ((_run sys repo tfInitCmd).toCmd, [tfInitCmd]) := by
      simp [terraform_plan, h, h1]
    exact ⟨he, by rw [he]; simp [RunRes.toCmd, h1]⟩
  case plan =>
    intro h1 h2
    have he : terraform_plan sys repo = ((_run sys repo tfPlanCmd).toCmd, [tfInitCmd, tfPlanCmd]) := by
      simp [terraform_plan, h, h1, h2]
    exact ⟨he, by rw [he]; simp [RunRes.toCmd, h2]⟩
  case shw =>
    intro h1 h2
    constructor
    · simp [terraform_plan, h, h1, h2]
    · simp [terraform_plan, h, h1, h2]

/-- A concrete environment in which terraform is on PATH but its init
sub-step exits with code 1. -/
def sysInitFails : Sys :=
  { which := fun t => t == "terraform",
    run := fun _ _ => .ok { code := 1, stdout := "", stderr := "init failed" },
    jsonLoads := fun _ => none }

/-- Witness for C9: with a failing init step, terraform_plan returns the
init failure and spawns only the init command. -/
theorem terraform_short_circuit_witness :
    terraform_plan sysInitFails "repo" = ((_run sysInitFails "repo" tfInitCmd).toCmd, [tfInitCmd]) ∧
    (terraform_plan sysInitFails "repo").1.ok = false :=
  (terraform_short_circuit sysInitFails "repo" rfl).1 rfl

/-! ### C5: the deterministic synthesis template and the cost line -/

/-- The Findings value the aggregator produces when the cost tool failed:
the infracost dict is present with `monthly_cost = None` (the spec's
"estimatedMonthlyCost absent"). -/
def stateCostNone : AgentState :=
  { ctx := { repo_dir := "repo" },
    findings := { tfsec := some { count := 0, severities := {} },
                  checkov := some { count := 0, severities := {} },
                  infracost := some none,
                  warnings := [] } }

/-- Claim C5 (evaluated at the failing input): on aggregator-produced
findings with an absent cost, the deterministic template renders the cost
line as None, not as the claimed "unavailable": the `monthly_cost` key is
always present in the infracost dict, so the `.get` default never fires. -/
theorem synth_cost_none_renders_None :
    (synth_node none stateCostNone).synthesis = some
      { markdown := "# InfraGuardian Report (deterministic)\n\n**tfsec**: 0 issues — \x7b\x27CRITICAL\x27: 0, \x27HIGH\x27: 0, \x27MEDIUM\x27: 0, \x27LOW\x27: 0, \x27UNKNOWN\x27: 0\x7d\n\n**Checkov**: 0 issues — \x7b\x27CRITICAL\x27: 0, \x27HIGH\x27: 0, \x27MEDIUM\x27: 0, \x27LOW\x27: 0, \x27UNKNOWN\x27: 0\x7d\n\n**Estimated Monthly Cost**: None" }
    ∧ costValueStr (some none) = "None" := ⟨rfl, rfl⟩

/-! ### C1: aggregate totality (refuted as stated; amended with a
schema-conformance condition) -/

/-- Counterexample to claim C1 as stated: a tool-name → CommandResult
mapping with schema-divergent structured output on which `aggregate` raises
(the tfsec `results` field holds a number, so `len()` raises TypeError). -/
theorem aggregate_raises_cex :
    aggregate [("tfsec", { json := some (.obj [("results", .num 42)]) })] =
      .error "TypeError: object has no len()" := rfl

/-! ### C2: the all-tools-missing scenario -/

/-- Counterexample to claim C2 as stated: with every tool binary missing,
the aggregator emits three warnings (tfsec, checkov, infracost), not two:
the infracost not-found stderr is routed to a warning by the same elif as
the other tools. -/
theorem all_tools_missing_cex :
    aggregate (execTools sysAbsent "repo" defaultSteps).1 = .ok
      { warnings := ["tfsec: tfsec not found", "checkov: checkov not found",
                     "infracost: infracost not found"],
        tfsec := { count := 0, severities := {} },
        checkov := { count := 0, severities := {} },
        monthly_cost := none, top_tfsec := [], top_checkov := [] }
    ∧ ["tfsec: tfsec not found", "checkov: checkov not found",
       "infracost: infracost not found"].length ≠ 2 := ⟨rfl, by decide⟩

/-- Claim C2 amended: for every environment with no tool binaries on PATH,
the executor returns, for each tool of the default plan, a failed
CommandResult with the "<tool> not found" message, spawns no process, and
the aggregator produces zero counts, an absent cost, and exactly three
warnings (security, compliance and cost; the terraform entry contributes no
warning). -/
theorem all_tools_missing (sys : Sys) (repo : String)
    (h : ∀ t, sys.which t = false) :
    execTools sys repo defaultSteps =
      ([("terraform", { ok := false, stderr := some "terraform not found" }),
        ("tfsec", { ok := false, stderr := some "tfsec not found" }),
        ("checkov", { ok := false, stderr := some "checkov not found" }),
        ("infracost", { ok := false, stderr := some "infracost not found" })], [])
    ∧ aggregate (execTools sys repo defaultSteps).1 = .ok
        { warnings := ["tfsec: tfsec not found", "checkov: checkov not found",
                       "infracost: infracost not found"],
          tfsec := { count := 0, severities := {} },
          checkov := { count := 0, severities := {} },
          monthly_cost := none, top_tfsec := [], top_checkov := [] } := by
  have he : execTools sys repo defaultSteps =
      ([("terraform", { ok := false, stderr := some "terraform not found" }),
        ("tfsec", { ok := false, stderr := some "tfsec not found" }),
        ("checkov", { ok := false, stderr := some "checkov not found" }),
        ("infracost", { ok := false, stderr := some "infracost not found" })], []) := by
    have h1 : terraform_plan sys repo =
        ({ ok := false, stderr := some "terraform not found" }, []) := by
      simp [terraform_plan, h]
    have h2 : tfsec_scan sys repo =
        ({ ok := false, stderr := some "tfsec not found" }, []) := by
      simp [tfsec_scan, h]
    have h3 : checkov_scan sys repo =
        ({ ok := false, stderr := some "checkov not found" }, []) := by
      simp [checkov_scan, h]
    have h4 : infracost_breakdown sys repo =
        ({ ok := false, stderr := some "infracost not found" }, []) := by
      simp [infracost_breakdown, h]
    simp [execTools, toolsOrdered, pysorted, insertByKey, sortKey, defaultSteps,
      runStep, dictSet, h1, h2, h3, h4]
  refine ⟨he, ?_⟩
  rw [he]
  rfl

/-- Witness for C2 at the concrete no-binaries environment. -/
theorem all_tools_missing_witness :
    execTools sysAbsent "repo" defaultSteps =
      ([("terraform", { ok := false, stderr := some "terraform not found" }),
        ("tfsec", { ok := false, stderr := some "tfsec not found" }),
        ("checkov", { ok := false, stderr := some "checkov not found" }),
        ("infracost", { ok := false, stderr := some "infracost not found" })], [])
    ∧ aggregate (execTools sysAbsent "repo" defaultSteps).1 = .ok
        { warnings := ["tfsec: tfsec not found", "checkov: checkov not found",
                       "infracost: infracost not found"],
          tfsec := { count := 0, severities := {} },
          checkov := { count := 0, severities := {} },
          monthly_cost := none, top_tfsec := [], top_checkov := [] } :=
  all_tools_missing sysAbsent "repo" (fun _ => rfl)

/-! ### C7: cost aggregation -/

theorem foldlM_append_ex {α β : Type} (f : β → α → Except String β)
    (l1 l2 : List α) (b : β) :
    (l1 ++ l2).foldlM f b = (l1.foldlM f b) >>= (fun b2 => l2.foldlM f b2) := by
  induction l1 generalizing b with
  | nil => rfl
  | cons x xs ih =>
    simp only [List.cons_append, List.foldlM]
    cases hx : f b x with
    | error e => simp [hx]
    | ok b2 => simp [hx, ih]

/-- A project entry that contributes nothing to the cost total: no summary,
or a summary without a (non-null) cost, or a cost that float() cannot parse. -/
def noContribution (p : Json) : Bool :=
  match p with
  | .obj fs =>
    match jlookup fs "summary" with
    | none => true
    | some (.obj ss) =>
      match jlookup ss "totalMonthlyCost" with
      | none => true
      | some .null => true
      | some v => (pyFloat v).isNone
    | some _ => false
  | _ => false

theorem projectStep_id (p : Json) (h : noContribution p = true) (t : Option Rat) :
    projectStep t p = .ok t := by
  cases p with
  | obj fs =>
    cases hs : jlookup fs "summary" with
    | none => simp [projectStep, pyGetD, hs, pyGetOpt]
    | some v =>
      simp only [noContribution, hs] at h
      cases v with
      | obj ss =>
        cases hc : jlookup ss "totalMonthlyCost" with
        | none => simp [projectStep, pyGetD, hs, pyGetOpt, hc]
        | some w =>
          simp only [hc] at h
          cases w with
          | null => simp [projectStep, pyGetD, hs, pyGetOpt, hc]
          | bool b => exact absurd h (by simp [pyFloat])
          | num q => exact absurd h (by simp [pyFloat])
          | str s =>
            have hw : pyFloat (.str s) = none := Option.isNone_iff_eq_none.mp h
            simp [projectStep, pyGetD, hs, pyGetOpt, hc, hw]
          | arr l => simp [projectStep, pyGetD, hs, pyGetOpt, hc, pyFloat]
          | obj ss2 => simp [projectStep, pyGetD, hs, pyGetOpt, hc, pyFloat]
      | null => exact absurd h (by simp)
      | bool b => exact absurd h (by simp)
      | num q => exact absurd h (by simp)
      | str s => exact absurd h (by simp)
      | arr l => exact absurd h (by simp)
  | null => exact absurd h (by simp [noContribution])
  | bool b => exact absurd h (by simp [noContribution])
  | num q => exact absurd h (by simp [noContribution])
  | str s => exact absurd h (by simp [noContribution])
  | arr l => exact absurd h (by simp [noContribution])

/-- One infracost project row with the given totalMonthlyCost string. -/
def costProject (v : String) : Json :=
  .obj [("summary", .obj [("totalMonthlyCost", .str v)])]

/-- The C7 scenario: the cost tool returned two projects with monthly costs
120.50 and 79.50. -/
def costScenario : List (String × CmdResult) :=
  [("infracost",
    { json := some (.obj [("projects", .arr [costProject "120.50", costProject "79.50"])]) })]

/-- The unevaluated total produced by the two float() calls of the scenario. -/
def costScenarioTotal : Rat :=
  (((120 : Nat) : Rat) + ((50 : Nat) : Rat) / (10 : Rat) ^ (2 : Nat)) +
  (((79 : Nat) : Rat) + ((50 : Nat) : Rat) / (10 : Rat) ^ (2 : Nat))

theorem cost_scenario_eval :
    aggregate costScenario = .ok
      { warnings := [], tfsec := { count := 0, severities := {} },
        checkov := { count := 0, severities := {} },
        monthly_cost := some costScenarioTotal, top_tfsec := [], top_checkov := [] } := rfl

/-- Claim C7: per-project monthly costs are summed into one total (the
120.50/79.50 scenario yields exactly 200); a project with a missing or
unparseable cost contributes nothing and does not fail the aggregate; and
when the whole cost tool failed, the total is left absent (None, not zero)
and a warning is appended. -/
theorem cost_aggregation :
    aggregate costScenario = .ok
      { warnings := [], tfsec := { count := 0, severities := {} },
        checkov := { count := 0, severities := {} },
        monthly_cost := some 200, top_tfsec := [], top_checkov := [] }
  ∧ (∀ (ps1 ps2 : List Json) (p : Json) (t : Option Rat), noContribution p = true →
       projectsFold t (ps1 ++ p :: ps2) = projectsFold t (ps1 ++ ps2))
  ∧ (∀ c : CmdResult, jTruthy c.json = false → sTruthy c.stderr = true →
       infracostBlock c = .ok (none, ["infracost: " ++ c.stderr.getD ""])) := by
  refine ⟨?scenario, ?skip, ?failed⟩
  case scenario =>
    have hC : costScenarioTotal = 200 := by norm_num [costScenarioTotal]
    rw [← hC]
    exact cost_scenario_eval
  case skip =>
    intro ps1 ps2 p t h
    simp only [projectsFold, foldlM_append_ex]
    apply bind_congr
    intro b2
    simp [List.foldlM, projectStep_id p h b2]
  case failed =>
    intro c h1 h2
    simp [infracostBlock, h1, h2]

/-- Witness for C7 exercising the hypothesis-bearing conjuncts at concrete
inputs: an empty project object contributes nothing, and a failed cost tool
yields an absent total plus the warning. -/
theorem cost_aggregation_witness :
    projectsFold none ([] ++ (.obj []) :: []) = projectsFold none ([] ++ [])
  ∧ infracostBlock { ok := false, stderr := some "infracost failed" } =
      .ok (none, ["infracost: infracost failed"]) :=
  ⟨cost_aggregation.2.1 [] [] (.obj []) none rfl,
   cost_aggregation.2.2 { ok := false, stderr := some "infracost failed" } rfl rfl⟩

/-! ### C3: histogram sum equals issue count -/

theorem bump_total (c : SevCounts) (s : String) :
    (c.bump s).total = c.total + 1 := by
  unfold SevCounts.bump SevCounts.total
  split_ifs <;> simp <;> omega

theorem sevFold_total (sevKey : String) :
    ∀ (l : List Json) (c0 c : SevCounts), sevFold sevKey c0 l = .ok c →
    c.total = c0.total + l.length := by
  intro l
  induction l with
  | nil =>
    intro c0 c h
    simp only [sevFold, List.foldlM] at h
    obtain rfl : c0 = c := by injection h
    simp
  | cons f fs ih =>
    intro c0 c h
    simp only [sevFold, List.foldlM] at h
    cases hb : sevBucket sevKey f with
    | error e => rw [hb] at h; simp at h
    | ok s =>
      rw [hb] at h
      simp only [exbind_ok, expure_ok] at h
      have := ih (c0.bump s) c h
      rw [this, bump_total]
      simp only [List.length_cons]
      omega

theorem pyLen_pyIter (v : Json) (n : Nat) (l : List Json)
    (hn : pyLen v = .ok n) (hl : pyIter v = .ok l) : l.length = n := by
  cases v with
  | null => exact absurd hn (by simp [pyLen])
  | bool b => exact absurd hn (by simp [pyLen])
  | num q => exact absurd hn (by simp [pyLen])
  | str s =>
    simp only [pyLen] at hn
    simp only [pyIter] at hl
    obtain rfl : s.length = n := by injection hn
    obtain rfl : s.data.map (fun c => Json.str (String.mk [c])) = l := by injection hl
    rw [List.length_map]
    rfl
  | arr el =>
    simp only [pyLen] at hn
    simp only [pyIter] at hl
    obtain rfl : el = l := by injection hl
    injection hn
  | obj fs =>
    simp only [pyLen] at hn
    simp only [pyIter] at hl
    obtain rfl : fs.map (fun kv => Json.str kv.1) = l := by injection hl
    obtain rfl : fs.length = n := by injection hn
    simp

theorem summarize_total (v : Json) (t : ToolSummary) (h : summarize v = .ok t) :
    t.severities.total = t.count := by
  unfold summarize at h
  cases hn : pyLen v with
  | error e => rw [hn] at h; simp at h
  | ok n =>
    rw [hn] at h
    simp only [exbind_ok] at h
    cases hc : sev_count v "severity" with
    | error e => rw [hc] at h; simp at h
    | ok c =>
      rw [hc] at h
      simp only [exbind_ok, expure_ok] at h
      obtain rfl : ({ count := n, severities := c } : ToolSummary) = t := by injection h
      unfold sev_count at hc
      cases hi : pyIter v with
      | error e => rw [hi] at hc; simp at hc
      | ok l =>
        rw [hi] at hc
        simp only [exbind_ok] at hc
        have := sevFold_total "severity" l SevCounts.zero c hc
        have hz : SevCounts.zero.total = 0 := rfl
        simp only [hz, Nat.zero_add] at this
        simpa [this] using pyLen_pyIter v n l hn hi

/-- Claim C3: for every Findings value the aggregator produces, the sum of
the severity histogram equals the issue count, for both the security and the
compliance category. -/
theorem hist_sum_eq_count (results : List (String × CmdResult)) (f : Agg)
    (h : aggregate results = .ok f) :
    f.tfsec.severities.total = f.tfsec.count ∧
    f.checkov.severities.total = f.checkov.count := by
  unfold aggregate at h
  simp only [] at h
  cases h1 : checkovBlock ((dictGet results "checkov").getD {}) with
  | error e => rw [h1] at h; simp at h
  | ok ck =>
    rw [h1] at h
    simp only [exbind_ok] at h
    cases h2 : infracostBlock ((dictGet results "infracost").getD {}) with
    | error e => rw [h2] at h; simp at h
    | ok ic =>
      rw [h2] at h
      simp only [exbind_ok] at h
      cases h3 : summarize (tfsecBlock ((dictGet results "tfsec").getD {})).1 with
      | error e => rw [h3] at h; simp at h
      | ok t1 =>
        rw [h3] at h
        simp only [exbind_ok] at h
        cases h4 : summarize (.arr ck.1) with
        | error e => rw [h4] at h; simp at h
        | ok t2 =>
          rw [h4] at h
          simp only [exbind_ok] at h
          cases h5 : topBlock (tfsecBlock ((dictGet results "tfsec").getD {})).1 "rule_id" with
          | error e => rw [h5] at h; simp at h
          | ok ti1 =>
            rw [h5] at h
            simp only [exbind_ok] at h
            cases h6 : topBlock (.arr ck.1) "check_id" with
            | error e => rw [h6] at h; simp at h
            | ok ti2 =>
              rw [h6] at h
              simp only [exbind_ok, expure_ok] at h
              obtain rfl : (_ : Agg) = f := by injection h
              exact ⟨summarize_total _ _ h3, summarize_total _ _ h4⟩

/-- Witness for C3 at the empty mapping. -/
theorem hist_sum_eq_count_witness :
    ({ count := 0, severities := {} } : ToolSummary).severities.total =
      ({ count := 0, severities := {} } : ToolSummary).count ∧
    ({ count := 0, severities := {} } : ToolSummary).severities.total =
      ({ count := 0, severities := {} } : ToolSummary).count :=
  hist_sum_eq_count []
    { warnings := [], tfsec := { count := 0, severities := {} },
      checkov := { count := 0, severities := {} },
      monthly_cost := none, top_tfsec := [], top_checkov := [] } rfl

/-! ### C1: aggregate totality under schema conformance -/

/-- A field value that severity normalization cannot raise on: absent,
falsy, or a string. -/
def strOrFalsy (o : Option Json) : Bool :=
  match o with
  | none => true
  | some v => !v.truthy || v.isStr

/-- A raw finding the histogram loop can process: a dict whose severity
fields, when truthy, hold strings. -/
def findingWF (f : Json) : Bool :=
  match f with
  | .obj fs => strOrFalsy (jlookup fs "severity") && strOrFalsy (jlookup fs "severity_label")
  | _ => false

/-- A findings collection: a JSON array of processable findings. -/
def findingsArrWF (v : Json) : Bool :=
  match v with
  | .arr l => l.all findingWF
  | _ => false

/-- Schema conformance for the security tool's CommandResult: if structured
output is a truthy dict with a `results` field, that field is an array of
processable findings. -/
def tfsecCmdWF (c : CmdResult) : Bool :=
  if jTruthy c.json then
    match c.json.getD .null with
    | .obj fs =>
      match jlookup fs "results" with
      | none => true
      | some v => findingsArrWF v
    | _ => true
  else true

/-- Schema conformance for one compliance module object. -/
def moduleWF (fw : Json) : Bool :=
  match fw with
  | .obj fs =>
    match jlookup fs "results" with
    | none => true
    | some (.obj rs) =>
      match jlookup rs "failed_checks" with
      | none => true
      | some fc => findingsArrWF fc
    | some _ => false
  | _ => false

/-- Schema conformance for the compliance tool's CommandResult. -/
def checkovCmdWF (c : CmdResult) : Bool :=
  if jTruthy c.json then
    match c.json.getD .null with
    | .arr fws => fws.all moduleWF
    | .obj fs => moduleWF (.obj fs)
    | _ => true
  else true

/-- Schema conformance for one cost project row: a dict whose summary, when
present, is a dict. -/
def projectWF (p : Json) : Bool :=
  match p with
  | .obj fs =>
    match jlookup fs "summary" with
    | none => true
    | some (.obj _) => true
    | some _ => false
  | _ => false

/-- Schema conformance for the cost tool's CommandResult. -/
def infracostCmdWF (c : CmdResult) : Bool :=
  if jTruthy c.json then
    match c.json.getD .null with
    | .obj fs =>
      match jlookup fs "projects" with
      | none => true
      | some (.arr ps) => ps.all projectWF
      | some _ => false
    | _ => true
  else true

/-- Schema conformance of a whole results mapping. -/
def resultsWF (results : List (String × CmdResult)) : Bool :=
  tfsecCmdWF ((dictGet results "tfsec").getD {}) &&
  checkovCmdWF ((dictGet results "checkov").getD {}) &&
  infracostCmdWF ((dictGet results "infracost").getD {})

theorem isStr_exists (v : Json) (h : v.isStr = true) : ∃ s, v = .str s := by
  cases v <;> simp [Json.isStr] at h ⊢

theorem findingsArrWF_exists (v : Json) (h : findingsArrWF v = true) :
    ∃ l, v = .arr l ∧ ∀ f ∈ l, findingWF f = true := by
  cases v <;> simp [findingsArrWF] at h ⊢
  exact h

theorem sevRawFallback (fs : List (String × Json))
    (h2 : strOrFalsy (jlookup fs "severity_label") = true) :
    ∃ s, (if jTruthy (jlookup fs "severity_label") then (jlookup fs "severity_label").getD .null
          else Json.str "UNKNOWN") = .str s := by
  cases hlb : jlookup fs "severity_label" with
  | none => exact ⟨"UNKNOWN", by simp [jTruthy]⟩
  | some w =>
    cases hw : w.truthy with
    | false => exact ⟨"UNKNOWN", by simp [jTruthy, hw]⟩
    | true =>
      rw [hlb] at h2
      simp only [strOrFalsy, hw, Bool.not_true, Bool.false_or] at h2
      obtain ⟨s, rfl⟩ := isStr_exists w h2
      exact ⟨s, by simp [jTruthy, hw]⟩

theorem sevRaw_str (fs : List (String × Json))
    (h1 : strOrFalsy (jlookup fs "severity") = true)
    (h2 : strOrFalsy (jlookup fs "severity_label") = true) :
    ∃ s, sevRaw "severity" fs = .str s := by
  unfold sevRaw
  cases hsv : jlookup fs "severity" with
  | none =>
    simp only [jTruthy]
    exact sevRawFallback fs h2
  | some v =>
    cases hv : v.truthy with
    | true =>
      rw [hsv] at h1
      simp only [strOrFalsy, hv, Bool.not_true, Bool.false_or] at h1
      obtain ⟨s, rfl⟩ := isStr_exists v h1
      exact ⟨s, by simp [jTruthy, hv]⟩
    | false =>
      simp only [jTruthy, hv]
      simp only [Bool.false_eq_true, if_false]
      exact sevRawFallback fs h2

theorem sevNorm_wf (f : Json) (h : findingWF f = true) :
    ∃ s, sevNorm "severity" f = .ok s := by
  cases f with
  | obj fs =>
    simp only [findingWF, Bool.and_eq_true] at h
    obtain ⟨s, hs⟩ := sevRaw_str fs h.1 h.2
    exact ⟨pyUpper s, by simp [sevNorm, hs]⟩
  | null => exact absurd h (by simp [findingWF])
  | bool b => exact absurd h (by simp [findingWF])
  | num q => exact absurd h (by simp [findingWF])
  | str s => exact absurd h (by simp [findingWF])
  | arr l => exact absurd h (by simp [findingWF])

theorem sevBucket_wf (f : Json) (h : findingWF f = true) :
    ∃ s, sevBucket "severity" f = .ok s := by
  obtain ⟨s, hs⟩ := sevNorm_wf f h
  exact ⟨_, sevBucket_of_norm f s hs⟩

theorem sevFold_wf (l : List Json) (h : ∀ f ∈ l, findingWF f = true) :
    ∀ c0, ∃ c, sevFold "severity" c0 l = .ok c := by
  induction l with
  | nil => exact fun c0 => ⟨c0, rfl⟩
  | cons f fs ih =>
    intro c0
    obtain ⟨s, hsb⟩ := sevBucket_wf f (h f (List.mem_cons_self f fs))
    have ht := ih (fun f2 hf2 => h f2 (List.mem_cons_of_mem f hf2)) (c0.bump s)
    obtain ⟨c, hc⟩ := ht
    refine ⟨c, ?_⟩
    simp only [sevFold, List.foldlM, hsb, exbind_ok, expure_ok]
    exact hc

theorem summarize_arr_wf (l : List Json) (h : ∀ f ∈ l, findingWF f = true) :
    ∃ t, summarize (.arr l) = .ok t ∧ t.count = l.length := by
  obtain ⟨c, hc⟩ := sevFold_wf l h SevCounts.zero
  exact ⟨{ count := l.length, severities := c },
    by simp [summarize, pyLen, sev_count, pyIter, hc], rfl⟩

theorem topProj_wf (k : String) (f : Json) (h : findingWF f = true) :
    ∃ r, topProj k f = .ok r := by
  cases f with
  | obj fs =>
    exact ⟨{ ident := jlookup fs k, severity := jlookup fs "severity",
             resource := jlookup fs "resource" }, by simp [topProj, pyGetOpt]⟩
  | null => exact absurd h (by simp [findingWF])
  | bool b => exact absurd h (by simp [findingWF])
  | num q => exact absurd h (by simp [findingWF])
  | str s => exact absurd h (by simp [findingWF])
  | arr l => exact absurd h (by simp [findingWF])

theorem mapM_topProj_wf (k : String) (l : List Json)
    (h : ∀ f ∈ l, findingWF f = true) :
    ∃ rs, l.mapM (topProj k) = .ok rs := by
  rw [← List.mapM'_eq_mapM]
  induction l with
  | nil => exact ⟨[], rfl⟩
  | cons f fs ih =>
    obtain ⟨r, hr⟩ := topProj_wf k f (h f (List.mem_cons_self f fs))
    obtain ⟨rs, hrs⟩ := ih (fun f2 hf2 => h f2 (List.mem_cons_of_mem f hf2))
    exact ⟨r :: rs, by simp [List.mapM', hr, hrs]⟩

theorem topBlock_arr_wf (l : List Json) (k : String)
    (h : ∀ f ∈ l, findingWF f = true) :
    ∃ ti, topBlock (.arr l) k = .ok ti := by
  obtain ⟨rs, hrs⟩ := mapM_topProj_wf k (l.take 5)
    (fun f hf => h f (List.mem_of_mem_take hf))
  refine ⟨rs, ?_⟩
  unfold topBlock
  rw [show pySlice5 (Json.arr l) = Except.ok (l.take 5) from rfl]
  simp only [exbind_ok]
  exact hrs

theorem tfsecBlock_wf (c : CmdResult) (h : tfsecCmdWF c = true) :
    ∃ l, (tfsecBlock c).1 = .arr l ∧ ∀ f ∈ l, findingWF f = true := by
  cases hcj : c.json with
  | none =>
    refine ⟨[], ?_, by simp⟩
    cases hs : sTruthy c.stderr <;> simp [tfsecBlock, hcj, jTruthy, hs]
  | some v =>
    cases hv : v.truthy with
    | false =>
      refine ⟨[], ?_, by simp⟩
      cases hs : sTruthy c.stderr <;> simp [tfsecBlock, hcj, jTruthy, hv, hs]
    | true =>
      rw [tfsecCmdWF, hcj] at h
      simp only [jTruthy, hv, if_true] at h
      cases v with
      | obj fs =>
        cases hr : jlookup fs "results" with
        | none =>
          exact ⟨[], by simp [tfsecBlock, hcj, jTruthy, hv, hr], by simp⟩
        | some w =>
          simp only [Option.getD_some, hr] at h
          obtain ⟨l, rfl, hl⟩ := findingsArrWF_exists w h
          exact ⟨l, by simp [tfsecBlock, hcj, jTruthy, hv, hr], hl⟩
      | null => exact absurd hv (by simp [Json.truthy])
      | bool b => exact ⟨[], by simp [tfsecBlock, hcj, jTruthy, hv], by simp⟩
      | num q => exact ⟨[], by simp [tfsecBlock, hcj, jTruthy, hv], by simp⟩
      | str s => exact ⟨[], by simp [tfsecBlock, hcj, jTruthy, hv], by simp⟩
      | arr l2 => exact ⟨[], by simp [tfsecBlock, hcj, jTruthy, hv], by simp⟩

theorem extractModule_wf (fw : Json) (h : moduleWF fw = true) :
    ∃ items, extractModule fw = .ok items ∧ ∀ f ∈ items, findingWF f = true := by
  cases fw with
  | obj fs =>
    cases hr : jlookup fs "results" with
    | none =>
      exact ⟨[], by simp [extractModule, pyGetD, hr, pyIter], by simp⟩
    | some r =>
      simp only [moduleWF, hr] at h
      cases r with
      | obj rs =>
        cases hfc : jlookup rs "failed_checks" with
        | none =>
          exact ⟨[], by simp [extractModule, pyGetD, hr, hfc, pyIter], by simp⟩
        | some fc =>
          simp only [hfc] at h
          obtain ⟨l, rfl, hl⟩ := findingsArrWF_exists fc h
          exact ⟨l, by simp [extractModule, pyGetD, hr, hfc, pyIter], hl⟩
      | null => exact absurd h (by simp)
      | bool b => exact absurd h (by simp)
      | num q => exact absurd h (by simp)
      | str s => exact absurd h (by simp)
      | arr l => exact absurd h (by simp)
  | null => exact absurd h (by simp [moduleWF])
  | bool b => exact absurd h (by simp [moduleWF])
  | num q => exact absurd h (by simp [moduleWF])
  | str s => exact absurd h (by simp [moduleWF])
  | arr l => exact absurd h (by simp [moduleWF])

theorem modulesFold_wf (fws : List Json) (h : ∀ fw ∈ fws, moduleWF fw = true) :
    ∀ acc, (∀ f ∈ acc, findingWF f = true) →
    ∃ l, modulesFold acc fws = .ok l ∧ ∀ f ∈ l, findingWF f = true := by
  induction fws with
  | nil => exact fun acc hacc => ⟨acc, rfl, hacc⟩
  | cons fw fws2 ih =>
    intro acc hacc
    obtain ⟨items, hit, hitWF⟩ := extractModule_wf fw (h fw (List.mem_cons_self fw fws2))
    have hacc2 : ∀ f ∈ acc ++ items, findingWF f = true := by
      intro f hf
      rcases List.mem_append.mp hf with hf2 | hf2
      · exact hacc f hf2
      · exact hitWF f hf2
    obtain ⟨l, hl, hlWF⟩ :=
      ih (fun fw2 hfw2 => h fw2 (List.mem_cons_of_mem fw hfw2)) (acc ++ items) hacc2
    refine ⟨l, ?_, hlWF⟩
    simp only [modulesFold, List.foldlM, hit, exbind_ok, expure_ok]
    exact hl

theorem checkovBlock_wf (c : CmdResult) (h : checkovCmdWF c = true) :
    ∃ pr, checkovBlock c = .ok pr ∧ ∀ f ∈ pr.1, findingWF f = true := by
  cases hcj : c.json with
  | none =>
    cases hs : sTruthy c.stderr with
    | false =>
      exact ⟨([], []), by simp [checkovBlock, hcj, jTruthy, hs], by simp⟩
    | true =>
      exact ⟨([], ["checkov: " ++ c.stderr.getD ""]),
        by simp [checkovBlock, hcj, jTruthy, hs], by simp⟩
  | some v =>
    cases hv : v.truthy with
    | false =>
      cases hs : sTruthy c.stderr with
      | false =>
        exact ⟨([], []), by simp [checkovBlock, hcj, jTruthy, hv, hs], by simp⟩
      | true =>
        exact ⟨([], ["checkov: " ++ c.stderr.getD ""]),
          by simp [checkovBlock, hcj, jTruthy, hv, hs], by simp⟩
    | true =>
      rw [checkovCmdWF, hcj] at h
      simp only [jTruthy, hv, if_true, Option.getD_some] at h
      cases v with
      | arr fws =>
        have hall : ∀ fw ∈ fws, moduleWF fw = true := by
          simpa using h
        obtain ⟨l, hl, hlWF⟩ := modulesFold_wf fws hall [] (by simp)
        refine ⟨(l, []), ?_, hlWF⟩
        simp only [checkovBlock, hcj, jTruthy, hv, if_true, Option.getD_some]
        rw [hl]
        rfl
      | obj fs =>
        obtain ⟨items, hit, hitWF⟩ := extractModule_wf (.obj fs) h
        refine ⟨(items, []), ?_, hitWF⟩
        simp only [checkovBlock, hcj, jTruthy, hv, if_true, Option.getD_some]
        rw [hit]
        rfl
      | null => exact absurd hv (by simp [Json.truthy])
      | bool b =>
        exact ⟨([], []), by simp [checkovBlock, hcj, jTruthy, hv], by simp⟩
      | num q =>
        exact ⟨([], []), by simp [checkovBlock, hcj, jTruthy, hv], by simp⟩
      | str s =>
        exact ⟨([], []), by simp [checkovBlock, hcj, jTruthy, hv], by simp⟩

theorem projectStep_wf (p : Json) (h : projectWF p = true) (t : Option Rat) :
    ∃ t2, projectStep t p = .ok t2 := by
  cases p with
  | obj fs =>
    cases hs : jlookup fs "summary" with
    | none => exact ⟨t, by simp [projectStep, pyGetD, hs, pyGetOpt]⟩
    | some v =>
      simp only [projectWF, hs] at h
      cases v with
      | obj ss =>
        cases hc : jlookup ss "totalMonthlyCost" with
        | none => exact ⟨t, by simp [projectStep, pyGetD, hs, pyGetOpt, hc]⟩
        | some w =>
          cases w with
          | null => exact ⟨t, by simp [projectStep, pyGetD, hs, pyGetOpt, hc]⟩
          | bool b =>
            cases t with
            | none =>
              exact ⟨some (if b then 1 else 0),
                by simp [projectStep, pyGetD, hs, pyGetOpt, hc, pyFloat]⟩
            | some x =>
              exact ⟨some (x + if b then 1 else 0),
                by simp [projectStep, pyGetD, hs, pyGetOpt, hc, pyFloat]⟩
          | num q =>
            cases t with
            | none => exact ⟨some q, by simp [projectStep, pyGetD, hs, pyGetOpt, hc, pyFloat]⟩
            | some x =>
              exact ⟨some (x + q), by simp [projectStep, pyGetD, hs, pyGetOpt, hc, pyFloat]⟩
          | str s2 =>
            cases hw : parsePyFloat s2 with
            | none => exact ⟨t, by simp [projectStep, pyGetD, hs, pyGetOpt, hc, pyFloat, hw]⟩
            | some val =>
              cases t with
              | none =>
                exact ⟨some val, by simp [projectStep, pyGetD, hs, pyGetOpt, hc, pyFloat, hw]⟩
              | some x =>
                exact ⟨some (x + val),
                  by simp [projectStep, pyGetD, hs, pyGetOpt, hc, pyFloat, hw]⟩
          | arr l => exact ⟨t, by simp [projectStep, pyGetD, hs, pyGetOpt, hc, pyFloat]⟩
          | obj ss2 => exact ⟨t, by simp [projectStep, pyGetD, hs, pyGetOpt, hc, pyFloat]⟩
      | null => exact absurd h (by simp)
      | bool b => exact absurd h (by simp)
      | num q => exact absurd h (by simp)
      | str s2 => exact absurd h (by simp)
      | arr l => exact absurd h (by simp)
  | null => exact absurd h (by simp [projectWF])
  | bool b => exact absurd h (by simp [projectWF])
  | num q => exact absurd h (by simp [projectWF])
  | str s => exact absurd h (by simp [projectWF])
  | arr l => exact absurd h (by simp [projectWF])

theorem projectsFold_wf (ps : List Json) (h : ∀ p ∈ ps, projectWF p = true) :
    ∀ t, ∃ t2, projectsFold t ps = .ok t2 := by
  induction ps with
  | nil => exact fun t => ⟨t, rfl⟩
  | cons p ps2 ih =>
    intro t
    obtain ⟨t1, ht1⟩ := projectStep_wf p (h p (List.mem_cons_self p ps2)) t
    obtain ⟨t2, ht2⟩ := ih (fun p2 hp2 => h p2 (List.mem_cons_of_mem p hp2)) t1
    refine ⟨t2, ?_⟩
    simp only [projectsFold, List.foldlM, ht1, exbind_ok]
    exact ht2

theorem infracostBlock_wf (c : CmdResult) (h : infracostCmdWF c = true) :
    ∃ pr, infracostBlock c = .ok pr := by
  cases hcj : c.json with
  | none =>
    cases hs : sTruthy c.stderr with
    | false => exact ⟨(none, []), by simp [infracostBlock, hcj, jTruthy, hs]⟩
    | true =>
      exact ⟨(none, ["infracost: " ++ c.stderr.getD ""]),
        by simp [infracostBlock, hcj, jTruthy, hs]⟩
  | some v =>
    cases hv : v.truthy with
    | false =>
      cases hs : sTruthy c.stderr with
      | false => exact ⟨(none, []), by simp [infracostBlock, hcj, jTruthy, hv, hs]⟩
      | true =>
        exact ⟨(none, ["infracost: " ++ c.stderr.getD ""]),
          by simp [infracostBlock, hcj, jTruthy, hv, hs]⟩
    | true =>
      rw [infracostCmdWF, hcj] at h
      simp only [jTruthy, hv, if_true, Option.getD_some] at h
      cases v with
      | obj fs =>
        cases hp : jlookup fs "projects" with
        | none =>
          exact ⟨(none, []),
            by simp [infracostBlock, hcj, jTruthy, hv, hp, pyIter, projectsFold]⟩
        | some w =>
          simp only [hp] at h
          cases w with
          | arr ps =>
            have hall : ∀ p ∈ ps, projectWF p = true := by simpa using h
            obtain ⟨t2, ht2⟩ := projectsFold_wf ps hall none
            refine ⟨(t2, []), ?_⟩
            simp only [infracostBlock, hcj, jTruthy, hv, if_true, hp, Option.getD_some, pyIter,
              exbind_ok]
            rw [ht2]
            rfl
          | null => exact absurd h (by simp)
          | bool b => exact absurd h (by simp)
          | num q => exact absurd h (by simp)
          | str s => exact absurd h (by simp)
          | obj fs2 => exact absurd h (by simp)
      | null => exact absurd hv (by simp [Json.truthy])
      | bool b =>
        cases hs : sTruthy c.stderr with
        | false => exact ⟨(none, []), by simp [infracostBlock, hcj, jTruthy, hv, hs]⟩
        | true =>
          exact ⟨(none, ["infracost: " ++ c.stderr.getD ""]),
            by simp [infracostBlock, hcj, jTruthy, hv, hs]⟩
      | num q =>
        cases hs : sTruthy c.stderr with
        | false => exact ⟨(none, []), by simp [infracostBlock, hcj, jTruthy, hv, hs]⟩
        | true =>
          exact ⟨(none, ["infracost: " ++ c.stderr.getD ""]),
            by simp [infracostBlock, hcj, jTruthy, hv, hs]⟩
      | str s =>
        cases hs : sTruthy c.stderr with
        | false => exact ⟨(none, []), by simp [infracostBlock, hcj, jTruthy, hv, hs]⟩
        | true =>
          exact ⟨(none, ["infracost: " ++ c.stderr.getD ""]),
            by simp [infracostBlock, hcj, jTruthy, hv, hs]⟩
      | arr l =>
        cases hs : sTruthy c.stderr with
        | false => exact ⟨(none, []), by simp [infracostBlock, hcj, jTruthy, hv, hs]⟩
        | true =>
          exact ⟨(none, ["infracost: " ++ c.stderr.getD ""]),
            by simp [infracostBlock, hcj, jTruthy, hv, hs]⟩

/-- Claim C1 amended: `aggregate` returns a Findings value without raising
for every mapping in which each present tool is absent, failed, unparseable,
or carries schema-conformant structured output (`resultsWF`); for a category
whose tool is absent from the mapping, the summary has issue count 0 and
every severity bucket 0, and an absent cost tool leaves the monthly cost
absent.  (As claim C1 literally stands it is false: see the counterexample,
where schema-divergent structured output makes `aggregate` raise.) -/
theorem aggregate_totality (results : List (String × CmdResult))
    (h : resultsWF results = true) :
    ∃ f, aggregate results = .ok f
      ∧ (dictGet results "tfsec" = none → f.tfsec = { count := 0, severities := {} })
      ∧ (dictGet results "checkov" = none → f.checkov = { count := 0, severities := {} })
      ∧ (dictGet results "infracost" = none → f.monthly_cost = none) := by
  simp only [resultsWF, Bool.and_eq_true] at h
  obtain ⟨⟨hTf, hCk⟩, hIc⟩ := h
  obtain ⟨l, hl, hlWF⟩ := tfsecBlock_wf _ hTf
  obtain ⟨ck, hck, hckWF⟩ := checkovBlock_wf _ hCk
  obtain ⟨ic, hic⟩ := infracostBlock_wf _ hIc
  obtain ⟨t1, ht1, ht1c⟩ := summarize_arr_wf l hlWF
  obtain ⟨t2, ht2, ht2c⟩ := summarize_arr_wf ck.1 hckWF
  obtain ⟨ti1, hti1⟩ := topBlock_arr_wf l "rule_id" hlWF
  obtain ⟨ti2, hti2⟩ := topBlock_arr_wf ck.1 "check_id" hckWF
  refine ⟨{ warnings := (tfsecBlock ((dictGet results "tfsec").getD {})).2 ++ ck.2 ++ ic.2,
            tfsec := t1, checkov := t2, monthly_cost := ic.1,
            top_tfsec := ti1, top_checkov := ti2 }, ?_, ?_, ?_, ?_⟩
  · simp only [aggregate]
    rw [hck]
    simp only [exbind_ok]
    rw [hic]
    simp only [exbind_ok]
    rw [hl, ht1]
    simp only [exbind_ok]
    rw [ht2]
    simp only [exbind_ok]
    rw [hti1]
    simp only [exbind_ok]
    rw [hti2]
    simp only [exbind_ok, expure_ok]
  · intro habs
    rw [habs] at hl
    have h2 : Json.arr [] = Json.arr l := hl
    obtain rfl : ([] : List Json) = l := by injection h2
    have h3 : Except.ok ({ count := 0, severities := {} } : ToolSummary) = .ok t1 := ht1
    have h4 : ({ count := 0, severities := {} } : ToolSummary) = t1 := by injection h3
    exact h4.symm
  · intro habs
    rw [habs] at hck
    have h2 : Except.ok (([], []) : List Json × List String) = .ok ck := hck
    have h3 : (([], []) : List Json × List String) = ck := by injection h2
    rw [← h3] at ht2
    have h4 : Except.ok ({ count := 0, severities := {} } : ToolSummary) = .ok t2 := ht2
    have h5 : ({ count := 0, severities := {} } : ToolSummary) = t2 := by injection h4
    exact h5.symm
  · intro habs
    rw [habs] at hic
    have h2 : Except.ok ((none, []) : Option Rat × List String) = .ok ic := hic
    have h3 : ((none, []) : Option Rat × List String) = ic := by injection h2
    show ic.1 = none
    rw [← h3]

/-- Witness for C1 at the empty mapping: every tool absent, aggregation
succeeds with zero-valued summaries. -/
theorem aggregate_totality_witness :
    ∃ f, aggregate [] = .ok f
      ∧ (dictGet [] "tfsec" = none → f.tfsec = { count := 0, severities := {} })
      ∧ (dictGet [] "checkov" = none → f.checkov = { count := 0, severities := {} })
      ∧ (dictGet [] "infracost" = none → f.monthly_cost = none) :=
  aggregate_totality [] rfl

/-! ### C10: conftest and gitleaks steps are silently skipped -/

theorem runStep_conftest (sys : Sys) (repo : String)
    (acc : List (String × CmdResult) × List (List String)) (step : PlanStep)
    (h : step.tool = "conftest" ∨ step.tool = "gitleaks") :
    runStep sys repo acc step = acc := by
  rcases h with h | h <;> simp [runStep, h]

theorem foldl_skip (sys : Sys) (repo : String) :
    ∀ (l : List PlanStep) (acc : List (String × CmdResult) × List (List String)),
    l.foldl (runStep sys repo) acc =
      (l.filter (fun s => s.tool != "conftest" && s.tool != "gitleaks")).foldl
        (runStep sys repo) acc := by
  intro l
  induction l with
  | nil => intro acc; rfl
  | cons x xs ih =>
    intro acc
    simp only [List.filter_cons, List.foldl_cons]
    by_cases hx : (x.tool != "conftest" && x.tool != "gitleaks") = true
    · rw [if_pos hx]
      simp only [List.foldl_cons]
      exact ih (runStep sys repo acc x)
    · rw [if_neg hx]
      have hskip : x.tool = "conftest" ∨ x.tool = "gitleaks" := by
        by_cases h1 : x.tool = "conftest"
        · exact Or.inl h1
        · right
          by_cases h2 : x.tool = "gitleaks"
          · exact h2
          · exact absurd
              (by simp [bne_iff_ne, h1, h2] :
                (x.tool != "conftest" && x.tool != "gitleaks") = true) hx
      rw [runStep_conftest sys repo acc x hskip]
      exact ih acc

theorem filter_comm_ps (p q : PlanStep → Bool) (l : List PlanStep) :
    (l.filter q).filter p = (l.filter p).filter q := by
  induction l with
  | nil => rfl
  | cons x xs ih =>
    by_cases hp : p x = true <;> by_cases hq : q x = true <;>
      simp [List.filter_cons, hp, hq, ih]

theorem toolsOrdered_filter (steps : List PlanStep) (q : PlanStep → Bool) :
    toolsOrdered (steps.filter q) = (toolsOrdered steps).filter q := by
  rw [toolsOrdered_partition, toolsOrdered_partition, List.filter_append,
    filter_comm_ps _ q, filter_comm_ps _ q]

theorem dictSet_mem (m : List (String × CmdResult)) (k : String) (v : CmdResult) :
    ∀ kv ∈ dictSet m k v, kv.1 = k ∨ kv ∈ m := by
  intro kv hkv
  unfold dictSet at hkv
  split at hkv
  · obtain ⟨kv0, hkv0, heq⟩ := List.mem_map.mp hkv
    by_cases h0 : kv0.1 = k
    · rw [if_pos h0] at heq
      left; rw [← heq]
    · rw [if_neg h0] at heq
      right; rw [← heq]; exact hkv0
  · rcases List.mem_append.mp hkv with h2 | h2
    · right; exact h2
    · left
      have : kv = (k, v) := List.mem_singleton.mp h2
      rw [this]

theorem runStep_keys (sys : Sys) (repo : String)
    (acc : List (String × CmdResult) × List (List String)) (step : PlanStep)
    (hacc : ∀ kv ∈ acc.1, kv.1 ∈ ["terraform", "tfsec", "checkov", "infracost"]) :
    ∀ kv ∈ (runStep sys repo acc step).1,
      kv.1 ∈ ["terraform", "tfsec", "checkov", "infracost"] := by
  intro kv hkv
  unfold runStep at hkv
  split at hkv <;>
    first
    | exact hacc kv hkv
    | (rcases dictSet_mem _ _ _ kv hkv with h1 | h1
       · rw [h1]; simp
       · exact hacc kv h1)

theorem foldl_keys (sys : Sys) (repo : String) :
    ∀ (l : List PlanStep) (acc : List (String × CmdResult) × List (List String)),
    (∀ kv ∈ acc.1, kv.1 ∈ ["terraform", "tfsec", "checkov", "infracost"]) →
    ∀ kv ∈ (l.foldl (runStep sys repo) acc).1,
      kv.1 ∈ ["terraform", "tfsec", "checkov", "infracost"] := by
  intro l
  induction l with
  | nil => exact fun acc hacc => hacc
  | cons x xs ih =>
    intro acc hacc
    simp only [List.foldl_cons]
    exact ih (runStep sys repo acc x) (runStep_keys sys repo acc x hacc)

/-- Claim C10: the Tool Executor silently skips conftest and gitleaks steps:
removing them from the plan changes neither the results mapping nor the
spawn trace, and the results mapping only ever holds the keys terraform,
tfsec, checkov and infracost. -/
theorem skip_unwired_tools (sys : Sys) (repo : String) (steps : List PlanStep) :
    execTools sys repo steps =
      execTools sys repo
        (steps.filter (fun s => s.tool != "conftest" && s.tool != "gitleaks"))
    ∧ ∀ kv ∈ (execTools sys repo steps).1,
        kv.1 ∈ ["terraform", "tfsec", "checkov", "infracost"] := by
  constructor
  · show (toolsOrdered steps).foldl (runStep sys repo) ([], []) = _
    rw [foldl_skip sys repo (toolsOrdered steps) ([], []),
      ← toolsOrdered_filter steps (fun s => s.tool != "conftest" && s.tool != "gitleaks")]
    rfl
  · exact foldl_keys sys repo (toolsOrdered steps) ([], []) (by simp)

/-- Witness for C10: a conftest-only plan produces the same (empty) results
and trace as the emptied plan, and a concrete results key is among the four
wired tools. -/
theorem skip_unwired_tools_witness :
    execTools sysAbsent "repo" [{ tool := "conftest" }] =
      execTools sysAbsent "repo"
        ([{ tool := "conftest" }].filter (fun s => s.tool != "conftest" && s.tool != "gitleaks"))
    ∧ "tfsec" ∈ ["terraform", "tfsec", "checkov", "infracost"] :=
  ⟨(skip_unwired_tools sysAbsent "repo" [{ tool := "conftest" }]).1,
   (skip_unwired_tools sysAbsent "repo" [{ tool := "tfsec" }]).2
     ("tfsec", { ok := false, stderr := some "tfsec not found" })
     (List.mem_singleton.mpr rfl)⟩

end Infraguardian
